import Mathlib

/-!
Shallow embedding of the credential-verification and access-authorization
core of the `loggier/studio` admin dashboard.

The embedded functions are translated from:
* `src/app/login/page.tsx` — plaintext authenticator `authenticateUser`;
* `src/lib/firebase/firestore/users.ts` (all revisions) — `pseudoHash`,
  `authenticateUserWithPseudoHash`, `authenticateUserWithBcrypt`,
  `addUser`, `updateUser`;
* `src/app/dashboard/users/page.tsx` — `handleDelete` (earlier revision)
  and `handleDeleteClick` (later revision);
* `src/app/dashboard/layout.tsx` — the session-restore effect and
  `handleLogout`.

JavaScript strings are modelled as Lean `String`s (`trim`/`toLowerCase`
mapped to the `jsTrim`/`jsToLower` helpers below, `charCodeAt` to `Char.toNat`);
a possibly-missing document field is an `Option`.  Asynchronous store
access that can fail is modelled by passing the store round-trip outcome
as an `Except` value; a caught JavaScript exception corresponds to
matching on the `.error` case.
-/

namespace Studio

/-- JavaScript string truthiness for a possibly-missing field: `undefined`
and the empty string are falsy, every other string is truthy. -/
def jsTruthy : Option String → Bool
  | none => false
  | some s => !(s = "")

/-- Model of `String.prototype.toLowerCase`, character-wise (the ASCII
case mapping, which is all the comparisons in the repository rely on). -/
def jsToLower (s : String) : String :=
  String.mk (s.data.map Char.toLower)

/-- The whitespace characters `String.prototype.trim` strips, restricted
to the ASCII ones. -/
def isJsWhitespace (c : Char) : Bool :=
  c = ' ' || c = '\t' || c = '\n' || c = '\r'

/-- Model of `String.prototype.trim`: strip leading and trailing whitespace. -/
def jsTrim (s : String) : String :=
  String.mk (((s.data.dropWhile isJsWhitespace).reverse.dropWhile isJsWhitespace).reverse)

/-- Email normalisation used before every lookup and write:
`correo.trim().toLowerCase()`. -/
def normalizeEmail (correo : String) : String :=
  jsToLower (jsTrim correo)

/-- Wrap an integer to a signed 32-bit value, as the JavaScript `| 0`
operation does. -/
def toInt32 (n : Int) : Int :=
  let m := n % 4294967296
  if m < 2147483648 then m else m - 4294967296

/-- JavaScript `Number.prototype.toString(16)` on a (possibly negative)
integer: lowercase hex digits, with a leading minus sign when negative. -/
def jsHexString (n : Int) : String :=
  if n < 0 then "-" ++ (Nat.toDigits 16 (-n).toNat).asString
  else (Nat.toDigits 16 n.toNat).asString

/-- One step of the pseudo-hash loop:
`hash = ((hash << 5) - hash) + char; hash |= 0`.
The `<< 5` already wraps to a signed 32-bit value before the subtraction,
and the `|= 0` wraps the sum again. -/
def pseudoHashStep (h : Int) (c : Nat) : Int :=
  toInt32 (toInt32 (h * 32) - h + c)

/-- Function `pseudoHash` from `src/lib/firebase/firestore/users.ts`:
returns the empty string for a falsy password, otherwise folds the 32-bit step loop over the
characters and prefixes the hex rendering with `pseudoSalt_`. -/
def pseudoHash (password : String) : String :=
  if password = "" then ""
  else "pseudoSalt_" ++
    jsHexString (password.data.foldl (fun h c => pseudoHashStep h c.toNat) 0)

/-- A stored `users` document, as the authenticators read it.  `password`
is the stored digest (or plaintext in the first revision); it is an
`Option` because a document may lack the field altogether. -/
structure UserDoc where
  nombre : String
  correo : String
  password : Option String
  empresa : Option String
  perfil : String
  telefono : Option String
  status : String
  updatedAt : Nat
  deriving Repr, DecidableEq

/-- The `users` collection: Firestore document id paired with its data. -/
def Store := List (String × UserDoc)

/-- The lookup `query(usersRef, where(correo, ==, correo), limit(1))`: the first
document whose `correo` field equals the (already normalised) email. -/
def findUserByCorreo (store : Store) (correo : String) : Option (String × UserDoc) :=
  store.find? (fun p => p.2.correo = correo)

/-- The non-secret principal returned on successful authentication
(`{id, nombre, correo, perfil}` — never the password). -/
structure AuthUser where
  id : String
  nombre : String
  correo : String
  perfil : String
  deriving Repr, DecidableEq

/-- The tagged result of an authenticator:
`{success: true, user}` or `{success: false, message}`. -/
inductive AuthResult where
  | success (user : AuthUser)
  | declined (message : String)
  deriving Repr, DecidableEq

/-- Body of the plaintext `authenticateUser` (`src/app/login/page.tsx`)
after the query resolved: compare `userData.password === contrasena`,
then check `userData.status !== activo`. -/
def authPlainCore (found : Option (String × UserDoc)) (contrasena : String) : AuthResult :=
  match found with
  | none => .declined "Usuario o contraseña inválidos."
  | some (id, d) =>
    if d.password = some contrasena then
      if d.status ≠ "activo" then .declined "La cuenta de usuario está inactiva."
      else .success ⟨id, d.nombre, d.correo, d.perfil⟩
    else .declined "Usuario o contraseña inválidos."

/-- Plaintext `authenticateUser` over a store that answered the query. -/
def authenticateUser (store : Store) (correo contrasena : String) : AuthResult :=
  authPlainCore (findUserByCorreo store (normalizeEmail correo)) contrasena

/-- Body of `authenticateUserWithPseudoHash` after the query resolved:
`if (storedHash && storedHash === pseudoHash(contrasena))`, then the
status check. -/
def authPseudoCore (found : Option (String × UserDoc)) (contrasena : String) : AuthResult :=
  match found with
  | none => .declined "Usuario o contraseña inválidos."
  | some (id, d) =>
    if jsTruthy d.password ∧ d.password = some (pseudoHash contrasena) then
      if d.status ≠ "activo" then .declined "La cuenta de usuario está inactiva."
      else .success ⟨id, d.nombre, d.correo, d.perfil⟩
    else .declined "Usuario o contraseña inválidos."

/-- Function `authenticateUserWithPseudoHash` over a store that answered the query. -/
def authenticateUserWithPseudoHash (store : Store) (correo contrasena : String) : AuthResult :=
  authPseudoCore (findUserByCorreo store (normalizeEmail correo)) contrasena

/-- Body of `authenticateUserWithBcrypt` after the query resolved.
`compare` stands for `bcrypt.compare`.  A missing or falsy stored hash
returns the distinguishable administrator-error message; otherwise the
comparison and then the status check run as in the source. -/
def authBcryptCore (compare : String → String → Bool)
    (found : Option (String × UserDoc)) (contrasena : String) : AuthResult :=
  match found with
  | none => .declined "Usuario o contraseña inválidos."
  | some (id, d) =>
    match d.password with
    | none => .declined "Error de autenticación. Contacte al administrador."
    | some storedHash =>
      if storedHash = "" then .declined "Error de autenticación. Contacte al administrador."
      else if compare contrasena storedHash then
        if d.status ≠ "activo" then .declined "La cuenta de usuario está inactiva."
        else .success ⟨id, d.nombre, d.correo, d.perfil⟩
      else .declined "Usuario o contraseña inválidos."

/-- Function `authenticateUserWithBcrypt` over a store that answered the query. -/
def authenticateUserWithBcrypt (compare : String → String → Bool)
    (store : Store) (correo contrasena : String) : AuthResult :=
  authBcryptCore compare (findUserByCorreo store (normalizeEmail correo)) contrasena

/-- Function `authenticateUserWithBcrypt` including its `try`/`catch`: the store
round trip may fail (`.error`), and the `catch` block converts any such
failure into a returned declined result — the function itself never
propagates an exception, so its outcome is always `.ok`. -/
def authBcryptRun (compare : String → String → Bool)
    (storeOutcome : Except String Store) (correo contrasena : String) :
    Except String AuthResult :=
  match storeOutcome with
  | .error _ => .ok (.declined "Error al intentar autenticar. Inténtalo de nuevo.")
  | .ok store => .ok (authenticateUserWithBcrypt compare store correo contrasena)

/-- The plaintext `authenticateUser` including its `try`/`catch`, with the
same conversion of an infrastructure failure into a declined result. -/
def authPlainRun (storeOutcome : Except String Store) (correo contrasena : String) :
    Except String AuthResult :=
  match storeOutcome with
  | .error _ => .ok (.declined "Error al intentar autenticar. Inténtalo de nuevo.")
  | .ok store => .ok (authenticateUser store correo contrasena)

/-- Modelled from the spec: the external `bcrypt` library is not part of
this repository, so it is embedded through its documented contract
(§4.1 Digest Strategy): `hash` produces a self-describing, hence
non-empty, digest and `verify`/`compare` accepts a plaintext against the
digest produced from that same plaintext. -/
structure Bcrypt where
  hash : String → Nat → String
  compare : String → String → Bool
  compare_hash : ∀ p r, compare p (hash p r) = true
  hash_ne_empty : ∀ p r, hash p r ≠ ""

/-- Constant `SALT_ROUNDS = 10` from the bcrypt revision of `users.ts`. -/
def SALT_ROUNDS : Nat := 10

/-- Input to `addUser`. -/
structure NewUserData where
  nombre : String
  correo : String
  password : Option String
  empresa : Option String
  perfil : String
  telefono : Option String
  status : String
  deriving Repr, DecidableEq

/-- The validation guard of `addUser`:
`!nombre || !correo || !newUserData.password || newUserData.password.length < 6`
(on the already-trimmed name and normalised email). -/
def addUserInvalid (nombre correo : String) (password : Option String) : Bool :=
  nombre = "" || correo = "" ||
    match password with
    | none => true
    | some p => p.length < 6

/-- The `docData` object `addUser` writes: trimmed name, normalised
email, the digest of the supplied password under the active strategy
`hashFn`, and the remaining profile fields (`?.trim() || null` on the
optional ones).  `now` stands for `serverTimestamp()`. -/
def addUserDocOf (hashFn : String → String) (now : Nat) (nu : NewUserData) : UserDoc :=
  { nombre := jsTrim nu.nombre
    correo := normalizeEmail nu.correo
    password := some (hashFn (nu.password.getD ""))
    empresa := match nu.empresa with
               | none => none
               | some e => if jsTrim e = "" then none else some (jsTrim e)
    perfil := nu.perfil
    telefono := match nu.telefono with
                | none => none
                | some t => if jsTrim t = "" then none else some (jsTrim t)
    status := nu.status
    updatedAt := now }

/-- Function `addUser` (both digest revisions, which differ only in the hashing
call, abstracted as `hashFn`): trims/normalises, validates, checks email
uniqueness against the store, and produces the document that is
written. -/
def addUser (hashFn : String → String) (store : Store) (now : Nat)
    (nu : NewUserData) : Except String UserDoc :=
  let nombre := jsTrim nu.nombre
  let correo := normalizeEmail nu.correo
  if addUserInvalid nombre correo nu.password then
    .error "Nombre, correo y contraseña (mínimo 6 caracteres) son obligatorios."
  else if (findUserByCorreo store correo).isSome then
    .error ("El correo \"" ++ correo ++ "\" ya está registrado.")
  else
    .ok (addUserDocOf hashFn now nu)

/-- Input to `updateUser`; a `none` field is `undefined` (field absent). -/
structure UpdateUserData where
  nombre : Option String
  correo : Option String
  empresa : Option String
  perfil : Option String
  telefono : Option String
  status : Option String
  password : Option String
  deriving Repr, DecidableEq

/-- The update object with every field `undefined`. -/
def emptyUpdate : UpdateUserData :=
  ⟨none, none, none, none, none, none, none⟩

/-- The `dataToUpdate` object assembled by `updateUser`, minus the
always-present `updatedAt` timestamp.  A `none` field was not added;
for `empresa`/`telefono` a written value may itself be `null`. -/
structure DocUpdate where
  nombre : Option String
  correo : Option String
  empresa : Option (Option String)
  perfil : Option String
  telefono : Option (Option String)
  status : Option String
  password : Option String
  deriving Repr, DecidableEq

/-- Does `dataToUpdate` hold any key besides `updatedAt`?  Mirrors
`Object.keys(dataToUpdate).length <= 1`. -/
def DocUpdate.hasField (w : DocUpdate) : Bool :=
  w.nombre.isSome || w.correo.isSome || w.empresa.isSome ||
    w.perfil.isSome || w.telefono.isSome || w.status.isSome || w.password.isSome

/-- Function `updateUser` (both digest revisions, hashing call abstracted as
`hashFn`): validates and collects the fields to write.  The result is
`.ok none` when the function returns early without calling `updateDoc`
(only `updatedAt` was in `dataToUpdate`), and `.ok (some w)` when
`updateDoc` is called with the field set `w` (plus the timestamp). -/
def updateUser (hashFn : String → String) (store : Store) (userId : String)
    (u : UpdateUserData) : Except String (Option DocUpdate) := do
  let nombreField ← match u.nombre with
    | none => pure none
    | some n =>
      if jsTrim n = "" then .error "El nombre no puede estar vacío."
      else pure (some (jsTrim n))
  let correoField ← match u.correo with
    | none => pure none
    | some c =>
      let c := normalizeEmail c
      if c = "" then .error "El correo no puede estar vacío."
      else match findUserByCorreo store c with
        | some (otherId, _) =>
          if otherId ≠ userId then
            .error ("El correo \"" ++ c ++ "\" ya está registrado para otro usuario.")
          else pure (some c)
        | none => pure (some c)
  let empresaField : Option (Option String) := match u.empresa with
    | none => none
    | some e => some (if jsTrim e = "" then none else some (jsTrim e))
  let telefonoField : Option (Option String) := match u.telefono with
    | none => none
    | some t => some (if jsTrim t = "" then none else some (jsTrim t))
  let passwordField ← match u.password with
    | none => pure none
    | some p =>
      if p.length ≥ 6 then pure (some (hashFn p))
      else if p.length > 0 then
        .error "La nueva contraseña debe tener al menos 6 caracteres."
      else pure none
  let w : DocUpdate :=
    { nombre := nombreField
      correo := correoField
      empresa := empresaField
      perfil := u.perfil
      telefono := telefonoField
      status := u.status
      password := passwordField }
  if w.hasField then pure (some w) else pure none

/-- Apply a written field set to a stored document, bumping `updatedAt`
to the server timestamp `now`. -/
def applyDocUpdate (d : UserDoc) (w : DocUpdate) (now : Nat) : UserDoc :=
  { nombre := w.nombre.getD d.nombre
    correo := w.correo.getD d.correo
    empresa := w.empresa.getD d.empresa
    perfil := w.perfil.getD d.perfil
    telefono := w.telefono.getD d.telefono
    status := w.status.getD d.status
    password := match w.password with
                | none => d.password
                | some p => some p
    updatedAt := now }

/-- The store after an `updateUser` call: unchanged when no write was
issued, otherwise the target document is rewritten. -/
def applyUpdateUser (hashFn : String → String) (store : Store) (userId : String)
    (u : UpdateUserData) (now : Nat) : Except String Store :=
  match updateUser hashFn store userId u with
  | .error e => .error e
  | .ok none => .ok store
  | .ok (some w) =>
    .ok (store.map (fun p => if p.1 = userId then (p.1, applyDocUpdate p.2 w now) else p))

/-- Outcome of the later revision of `handleDeleteClick` in
`src/app/dashboard/users/page.tsx`. -/
inductive DeleteClickResult where
  | aborted
  | restricted (message : String)
  | openDialog (id nombre : String)
  deriving Repr, DecidableEq

/-- Handler `handleDeleteClick(userId, userName)` from the later users-page
revision: an early return when either argument is falsy, the
case-insensitive reserved-name check on the string `admin`, and otherwise the
confirmation dialog is opened for the target.  The commented-out
comparison against the logged-in principal is not part of the executed
code, so the function reads no acting principal at all. -/
def handleDeleteClick (userId userName : String) : DeleteClickResult :=
  if userId = "" ∨ userName = "" then .aborted
  else if jsToLower userName = "admin" then
    .restricted "No se puede eliminar al usuario administrador principal."
  else .openDialog userId userName

/-- The session object the earlier users-page revision reads back from
the client-local store; it accesses a `username` property, which may be
absent on the object the login flow actually persisted. -/
structure StoredUserA where
  id : String
  username : Option String
  deriving Repr, DecidableEq

/-- Outcome of the earlier revision of `handleDelete`. -/
inductive HandleDeleteResult where
  | denied (message : String)
  | deleteCalled (id : String)
  | cancelled
  deriving Repr, DecidableEq

/-- Handler `handleDelete(userId, username)` from the earlier users-page
revision: refuses when the `username` field of the stored principal
strictly equals the displayed `username` of the target, then runs the
`confirm(...)` dialog (`confirmed` is the answer) and calls
`deleteUser(userId)`. -/
def handleDelete (currentUser : Option StoredUserA) (userId username : String)
    (confirmed : Bool) : HandleDeleteResult :=
  match currentUser with
  | some cu =>
    if cu.username = some username then
      .denied "You cannot delete your own user account."
    else if confirmed then .deleteCalled userId else .cancelled
  | none => if confirmed then .deleteCalled userId else .cancelled

/-- The raw object obtained by parsing the persisted session JSON; each
field may be absent. -/
structure StoredRaw where
  id : Option String
  nombre : Option String
  correo : Option String
  perfil : Option String
  deriving Repr, DecidableEq

/-- The persisted session value found in the client-local store on
process start: absent key, a string that is not valid JSON, the JSON
value `null`, or a parsed object. -/
inductive PersistedValue where
  | absent
  | malformedJson
  | jsonNull
  | obj (u : StoredRaw)
  deriving Repr, DecidableEq

/-- Outcome of the session-restore effect in
`src/app/dashboard/layout.tsx`: the resulting session state, whether
`localStorage.removeItem(user)` was called, and whether the user was
sent to `/login`. -/
structure InitOutcome where
  user : Option StoredRaw
  erased : Bool
  redirectedToLogin : Bool
  deriving Repr, DecidableEq

/-- The validation `storedUser && storedUser.id && storedUser.nombre &&
storedUser.correo` on the parsed object. -/
def storedUserValid (u : StoredRaw) : Bool :=
  jsTruthy u.id && jsTruthy u.nombre && jsTruthy u.correo

/-- The session-restore effect of `DashboardLayout`: a missing key
redirects to login (nothing to erase); a parse failure, a falsy parsed
value, or a failed field validation runs `handleLogout` (erase the
persisted copy, clear the state, redirect); a valid object becomes the
authenticated session. -/
def initSession : PersistedValue → InitOutcome
  | .absent => ⟨none, false, true⟩
  | .malformedJson => ⟨none, true, true⟩
  | .jsonNull => ⟨none, true, true⟩
  | .obj u =>
    if storedUserValid u then ⟨some u, false, false⟩
    else ⟨none, true, true⟩

/-- The view rendered at the `/dashboard/users` route: `DashboardLayout`
returns the loading placeholder (after pushing `/login`) when no session
was restored, and otherwise renders its child page.  `UsersPage` itself
performs no profile check, so every authenticated session receives the
user-management page; no access-denied branch exists in the source. -/
inductive RouteView where
  | usersPage
  | accessDenied
  | loadingRedirect
  deriving Repr, DecidableEq

/-- Composition of `DashboardLayout` and `UsersPage` for a direct
navigation to `/dashboard/users`. -/
def renderUsersRoute (session : Option StoredRaw) : RouteView :=
  match session with
  | none => .loadingRedirect
  | some _ => .usersPage

/-- The conditional rendering of the Users sidebar link:
`user.perfil === admin && (...)`. -/
def sidebarShowsUsersLink (perfil : String) : Bool :=
  perfil = "admin"


/-! ### Shared concrete material for witnesses and counterexamples -/

/-- A bcrypt implementation satisfying the modelled contract, used to
instantiate the contract-parameterised theorems on concrete inputs. -/
def bcryptDemo : Bcrypt where
  hash := fun p _ => "H" ++ p
  compare := fun p d => d = "H" ++ p
  compare_hash := by intro p r; simp
  hash_ne_empty := by
    intro p r h
    have hl := congrArg String.length h
    rw [String.length_append] at hl
    have e1 : ("H" : String).length = 1 := rfl
    have e2 : ("" : String).length = 0 := rfl
    rw [e1, e2] at hl
    omega

/-- An active stored account used by witnesses. -/
def docAna : UserDoc :=
  { nombre := "Ana", correo := "a@b.com", password := some "pw1234",
    empresa := none, perfil := "admin", telefono := none,
    status := "activo", updatedAt := 0 }

/-- An inactive stored account used by witnesses. -/
def docInes : UserDoc :=
  { nombre := "Ines", correo := "ines@x.com", password := some "pw1234",
    empresa := none, perfil := "tecnico", telefono := none,
    status := "inactivo", updatedAt := 0 }

/-- A stored account whose password digest field is missing. -/
def docSinHash : UserDoc :=
  { nombre := "Nico", correo := "nohash@x.com", password := none,
    empresa := none, perfil := "tecnico", telefono := none,
    status := "activo", updatedAt := 0 }

/-- A comparison that rejects everything: models a wrong password under
any digest. -/
def cmpFalse : String → String → Bool := fun _ _ => false

/-- The add-user input used by the round-trip witness. -/
def demoNewUser : NewUserData :=
  { nombre := "Ana", correo := "a@b.com", password := some "secret1",
    empresa := none, perfil := "admin", telefono := none, status := "activo" }

/-! ### Helper lemmas -/

theorem pseudoHash_ne_empty {p : String} (hp : p ≠ "") : pseudoHash p ≠ "" := by
  unfold pseudoHash
  rw [if_neg hp]
  intro h
  have hl := congrArg String.length h
  rw [String.length_append] at hl
  have e1 : ("pseudoSalt_" : String).length = 11 := rfl
  have e2 : ("" : String).length = 0 := rfl
  rw [e1, e2] at hl
  omega

theorem ne_empty_of_six_le {p : String} (hp : 6 ≤ p.length) : p ≠ "" := by
  intro h; subst h; simp at hp


/-- A comparison that accepts everything: models the correct password
under an arbitrary digest. -/
def cmpTrue : String → String → Bool := fun _ _ => true

/-- C1 (non-enumeration): a lookup that matches no stored record and a
matched record with a failing password comparison produce declined
results carrying the identical reason text
`Usuario o contraseña inválidos.`, for the plaintext and the bcrypt
authenticator alike (the bcrypt case assumes the record carries a
well-formed stored digest; a missing digest is the separately tracked
malformed-digest behaviour). -/
theorem authenticate_non_enumeration
    (compare : String → String → Bool) (store : Store) (correo contrasena : String) :
    (findUserByCorreo store (normalizeEmail correo) = none →
        authenticateUser store correo contrasena = .declined "Usuario o contraseña inválidos."
      ∧ authenticateUserWithBcrypt compare store correo contrasena
          = .declined "Usuario o contraseña inválidos.")
    ∧ (∀ id d, findUserByCorreo store (normalizeEmail correo) = some (id, d) →
        (d.password ≠ some contrasena →
          authenticateUser store correo contrasena = .declined "Usuario o contraseña inválidos.")
        ∧ (∀ h, d.password = some h → h ≠ "" → compare contrasena h = false →
          authenticateUserWithBcrypt compare store correo contrasena
            = .declined "Usuario o contraseña inválidos.")) := by
  constructor
  · intro hfind
    constructor
    · simp [authenticateUser, authPlainCore, hfind]
    · simp [authenticateUserWithBcrypt, authBcryptCore, hfind]
  · intro id d hfind
    constructor
    · intro hpw
      simp [authenticateUser, authPlainCore, hfind, hpw]
    · intro h hph hne hcmp
      simp [authenticateUserWithBcrypt, authBcryptCore, hfind, hph, hne, hcmp]

/-- Witness for C1 at a concrete store: an unknown email and a known
email with a wrong password yield the same declined message. -/
theorem authenticate_non_enumeration_witness :
    (authenticateUser [("u1", docAna)] "ghost@x.com" "whatever"
        = .declined "Usuario o contraseña inválidos."
      ∧ authenticateUserWithBcrypt cmpFalse [("u1", docAna)] "ghost@x.com" "whatever"
          = .declined "Usuario o contraseña inválidos.")
    ∧ authenticateUser [("u1", docAna)] "a@b.com" "wrong"
        = .declined "Usuario o contraseña inválidos."
    ∧ authenticateUserWithBcrypt cmpFalse [("u1", docAna)] "a@b.com" "wrong"
        = .declined "Usuario o contraseña inválidos." :=
  ⟨(authenticate_non_enumeration cmpFalse [("u1", docAna)] "ghost@x.com" "whatever").1 (by decide),
   ((authenticate_non_enumeration cmpFalse [("u1", docAna)] "a@b.com" "wrong").2 "u1" docAna
      (by decide)).1 (by decide),
   ((authenticate_non_enumeration cmpFalse [("u1", docAna)] "a@b.com" "wrong").2 "u1" docAna
      (by decide)).2 "pw1234" (by decide) (by decide) (by decide)⟩

/-- C2 counterexample: with an acting principal of id `u1`, a delete
request for the target record of the same id `u1` (display name `Bob`)
is not refused — the later revision opens the confirmation dialog and
the earlier revision issues the store delete, because neither handler
compares ids. -/
theorem selfDelete_guard_counterexample :
    handleDeleteClick "u1" "Bob" = .openDialog "u1" "Bob"
      ∧ handleDelete (some ⟨"u1", some "alice"⟩) "u1" "Bob" true = .deleteCalled "u1" := by
  decide

/-- C2 amended: the only client-side refusals of the delete flow are
name-based — the later revision refuses exactly the reserved name
`admin` (everything else reaches the confirmation dialog), and the
earlier revision refuses exactly when the stored principal field `username`
equals the displayed name of the target.  Ids are never compared. -/
theorem selfDelete_guard_amended (userId userName : String) (cu : StoredUserA) (confirmed : Bool) :
    (userId ≠ "" → userName ≠ "" → jsToLower userName ≠ "admin" →
      handleDeleteClick userId userName = .openDialog userId userName)
    ∧ (cu.username = some userName →
      handleDelete (some cu) userId userName confirmed
        = .denied "You cannot delete your own user account.")
    ∧ (cu.username ≠ some userName → confirmed = true →
      handleDelete (some cu) userId userName confirmed = .deleteCalled userId) := by
  refine ⟨?_, ?_, ?_⟩
  · intro h1 h2 h3
    simp [handleDeleteClick, h1, h2, h3]
  · intro h
    simp [handleDelete, h]
  · intro h hc
    subst hc
    simp [handleDelete, h]

/-- Witness for the amended C2 at concrete inputs. -/
theorem selfDelete_guard_amended_witness :
    handleDeleteClick "u2" "Carla" = .openDialog "u2" "Carla"
      ∧ handleDelete (some ⟨"u1", some "Bob"⟩) "u9" "Bob" true
          = .denied "You cannot delete your own user account."
      ∧ handleDelete (some ⟨"u1", some "alice"⟩) "u9" "Bob" true = .deleteCalled "u9" :=
  ⟨(selfDelete_guard_amended "u2" "Carla" ⟨"u1", some "Bob"⟩ true).1
      (by decide) (by decide) (by decide),
   (selfDelete_guard_amended "u9" "Bob" ⟨"u1", some "Bob"⟩ true).2.1 (by decide),
   (selfDelete_guard_amended "u9" "Bob" ⟨"u1", some "alice"⟩ true).2.2 (by decide) rfl⟩

/-- C3 counterexample: an authenticated principal with `perfil`
`tecnico` navigating directly to the user-management route is served
the users page itself, not an access-denied view. -/
theorem role_gate_counterexample :
    renderUsersRoute (some ⟨some "u2", some "Teo", some "teo@x.com", some "tecnico"⟩)
        = .usersPage
      ∧ RouteView.usersPage ≠ RouteView.accessDenied := by
  decide

/-- C3 amended: the only role gating is the sidebar link, rendered
exactly for `perfil = admin`; direct navigation renders the users page
for every authenticated session, and an unauthenticated start is sent to
login — no access-denied view exists. -/
theorem role_gate_amended (u : StoredRaw) (p : String) :
    renderUsersRoute (some u) = .usersPage
      ∧ renderUsersRoute none = .loadingRedirect
      ∧ sidebarShowsUsersLink p = decide (p = "admin") :=
  ⟨rfl, rfl, rfl⟩

/-- C4 (inactive gate): a stored record with status `inactivo` never
authenticates successfully; with the correct password the decline reason
is the account-inactive text, and with a wrong password it is the
generic invalid-credentials text — showing the status check runs only
after the password verified. -/
theorem inactive_gate (compare : String → String → Bool) (store : Store)
    (correo contrasena id : String) (d : UserDoc) (h : String)
    (hfind : findUserByCorreo store (normalizeEmail correo) = some (id, d))
    (hstatus : d.status = "inactivo")
    (hpw : d.password = some h) (hne : h ≠ "") :
    (compare contrasena h = true →
      authenticateUserWithBcrypt compare store correo contrasena
        = .declined "La cuenta de usuario está inactiva.")
    ∧ (compare contrasena h = false →
      authenticateUserWithBcrypt compare store correo contrasena
        = .declined "Usuario o contraseña inválidos.")
    ∧ (h = contrasena →
      authenticateUser store correo contrasena = .declined "La cuenta de usuario está inactiva.")
    ∧ (∀ u, authenticateUserWithBcrypt compare store correo contrasena ≠ .success u
        ∧ authenticateUser store correo contrasena ≠ .success u) := by
  refine ⟨?_, ?_, ?_, ?_⟩
  · intro hcmp
    simp [authenticateUserWithBcrypt, authBcryptCore, hfind, hpw, hne, hcmp, hstatus]
  · intro hcmp
    simp [authenticateUserWithBcrypt, authBcryptCore, hfind, hpw, hne, hcmp]
  · intro hpc
    subst hpc
    simp [authenticateUser, authPlainCore, hfind, hpw, hstatus]
  · intro u
    constructor
    · cases hcmp : compare contrasena h with
      | true => simp [authenticateUserWithBcrypt, authBcryptCore, hfind, hpw, hne, hcmp, hstatus]
      | false => simp [authenticateUserWithBcrypt, authBcryptCore, hfind, hpw, hne, hcmp]
    · by_cases hpc : d.password = some contrasena
      · simp [authenticateUser, authPlainCore, hfind, hpc, hstatus]
      · simp [authenticateUser, authPlainCore, hfind, hpc]

/-- Witness for C4: the concrete inactive account declines with the
account-inactive reason on the correct password and with the generic
reason on a wrong one. -/
theorem inactive_gate_witness :
    authenticateUserWithBcrypt cmpTrue [("u2", docInes)] "ines@x.com" "pw1234"
        = .declined "La cuenta de usuario está inactiva."
      ∧ authenticateUser [("u2", docInes)] "ines@x.com" "pw1234"
          = .declined "La cuenta de usuario está inactiva."
      ∧ authenticateUserWithBcrypt cmpFalse [("u2", docInes)] "ines@x.com" "other"
          = .declined "Usuario o contraseña inválidos." :=
  ⟨(inactive_gate cmpTrue [("u2", docInes)] "ines@x.com" "pw1234" "u2" docInes "pw1234"
      (by decide) rfl rfl (by decide)).1 rfl,
   (inactive_gate cmpTrue [("u2", docInes)] "ines@x.com" "pw1234" "u2" docInes "pw1234"
      (by decide) rfl rfl (by decide)).2.2.1 rfl,
   (inactive_gate cmpFalse [("u2", docInes)] "ines@x.com" "other" "u2" docInes "pw1234"
      (by decide) rfl rfl (by decide)).2.1 rfl⟩


/-- C5: evaluating the bcrypt authenticator at a stored record whose
password digest field is missing shows a distinguishable reason text —
the claimed generic invalid-credentials reason is NOT produced, while
the earlier pseudo-hash authenticator did produce it at the same
input. -/
theorem missing_digest_distinguishable :
    authenticateUserWithBcrypt cmpFalse [("u3", docSinHash)] "nohash@x.com" "whatever"
        = .declined "Error de autenticación. Contacte al administrador."
      ∧ authenticateUserWithPseudoHash [("u3", docSinHash)] "nohash@x.com" "whatever"
          = .declined "Usuario o contraseña inválidos."
      ∧ ("Error de autenticación. Contacte al administrador."
          ≠ "Usuario o contraseña inválidos.") := by
  refine ⟨rfl, ?_, by decide⟩
  simp [authenticateUserWithPseudoHash, authPseudoCore, findUserByCorreo, docSinHash,
    normalizeEmail, jsTruthy]
  decide

/-- C6 counterexample: when the store round trip fails, the
authenticators return (`.ok`) a declined result instead of propagating
the exception — the claim that they throw exactly on infrastructure
failure is false at this input. -/
theorem auth_result_discipline_counterexample :
    authBcryptRun cmpFalse (.error "store unreachable") "a@b.com" "pw"
        = .ok (.declined "Error al intentar autenticar. Inténtalo de nuevo.")
      ∧ authPlainRun (.error "store unreachable") "a@b.com" "pw"
          = .ok (.declined "Error al intentar autenticar. Inténtalo de nuevo.") :=
  ⟨rfl, rfl⟩

/-- C6 amended: every call returns a tagged result (`success` or
`declined`) and never propagates an exception; a store failure is caught
and converted into a declined result with the generic retry message. -/
theorem auth_result_discipline_amended (compare : String → String → Bool)
    (so : Except String Store) (correo contrasena : String) :
    (∃ r, authBcryptRun compare so correo contrasena = .ok r)
    ∧ (∀ e, so = .error e →
        authBcryptRun compare so correo contrasena
            = .ok (.declined "Error al intentar autenticar. Inténtalo de nuevo.")
          ∧ authPlainRun so correo contrasena
            = .ok (.declined "Error al intentar autenticar. Inténtalo de nuevo."))
    ∧ (∀ r, authBcryptRun compare so correo contrasena = .ok r →
        (∃ u, r = .success u) ∨ (∃ m, r = .declined m)) := by
  refine ⟨?_, ?_, ?_⟩
  · cases so with
    | error e => exact ⟨_, rfl⟩
    | ok s => exact ⟨_, rfl⟩
  · intro e he
    subst he
    exact ⟨rfl, rfl⟩
  · intro r _
    cases r with
    | success u => exact Or.inl ⟨u, rfl⟩
    | declined m => exact Or.inr ⟨m, rfl⟩

/-- Witness for the amended C6 at a failing store outcome. -/
theorem auth_result_discipline_amended_witness :
    (∃ r, authBcryptRun cmpFalse (.error "down") "x@y.com" "p" = .ok r)
      ∧ authBcryptRun cmpFalse (.error "down") "x@y.com" "p"
          = .ok (.declined "Error al intentar autenticar. Inténtalo de nuevo.") :=
  ⟨(auth_result_discipline_amended cmpFalse (.error "down") "x@y.com" "p").1,
   ((auth_result_discipline_amended cmpFalse (.error "down") "x@y.com" "p").2.1 "down" rfl).1⟩

/-- C7 (digest round-trip): under either digest strategy, a user added
through `addUser` with a password of length at least six subsequently
authenticates with that same password; in particular
`compare p (hash p SALT_ROUNDS) = true` for the bcrypt contract and the
stored pseudo-hash equals the recomputed pseudo-hash of the attempt. -/
theorem digest_roundtrip (b : Bcrypt) (store : Store) (nu : NewUserData)
    (p id : String) (now : Nat)
    (hpw : nu.password = some p) (hlen : 6 ≤ p.length)
    (hnom : jsTrim nu.nombre ≠ "") (hcor : normalizeEmail nu.correo ≠ "")
    (hfree : findUserByCorreo store (normalizeEmail nu.correo) = none)
    (hact : nu.status = "activo") :
    b.compare p (b.hash p SALT_ROUNDS) = true
    ∧ (∃ d, addUser (fun q => b.hash q SALT_ROUNDS) store now nu = .ok d
        ∧ authBcryptCore b.compare (some (id, d)) p
            = .success ⟨id, d.nombre, d.correo, d.perfil⟩)
    ∧ (∃ d, addUser pseudoHash store now nu = .ok d
        ∧ authPseudoCore (some (id, d)) p
            = .success ⟨id, d.nombre, d.correo, d.perfil⟩) := by
  have hinv : addUserInvalid (jsTrim nu.nombre) (normalizeEmail nu.correo) nu.password
      = false := by
    simp [addUserInvalid, hpw, hnom, hcor]
    omega
  have hps : p ≠ "" := ne_empty_of_six_le hlen
  refine ⟨b.compare_hash p SALT_ROUNDS,
    ⟨addUserDocOf (fun q => b.hash q SALT_ROUNDS) now nu, ?_, ?_⟩,
    ⟨addUserDocOf pseudoHash now nu, ?_, ?_⟩⟩
  · simp [addUser, hinv, hfree]
  · have hne := b.hash_ne_empty p SALT_ROUNDS
    simp [authBcryptCore, addUserDocOf, hpw, hne, hact, b.compare_hash]
  · simp [addUser, hinv, hfree]
  · have hne := pseudoHash_ne_empty hps
    simp [authPseudoCore, addUserDocOf, hpw, jsTruthy, hne, hact]

/-- Witness for C7 with the demo bcrypt implementation on the concrete
password `secret1`. -/
theorem digest_roundtrip_witness :
    bcryptDemo.compare "secret1" (bcryptDemo.hash "secret1" SALT_ROUNDS) = true
    ∧ (∃ d, addUser (fun q => bcryptDemo.hash q SALT_ROUNDS) [] 0 demoNewUser = .ok d
        ∧ authBcryptCore bcryptDemo.compare (some ("u1", d)) "secret1"
            = .success ⟨"u1", d.nombre, d.correo, d.perfil⟩)
    ∧ (∃ d, addUser pseudoHash [] 0 demoNewUser = .ok d
        ∧ authPseudoCore (some ("u1", d)) "secret1"
            = .success ⟨"u1", d.nombre, d.correo, d.perfil⟩) :=
  digest_roundtrip bcryptDemo [] demoNewUser "secret1" "u1" 0 rfl (by decide)
    (by decide) (by decide) rfl rfl

/-- C8 (malformed session): an absent persisted value, a value that is
not valid JSON, or a parsed object missing one of the required fields
`id`, `nombre`, `correo` leaves the session holder unauthenticated on
process start, and whenever the value was present the persisted copy is
erased. -/
theorem malformed_session_unauthenticated (p : PersistedValue)
    (hp : p = .absent ∨ p = .malformedJson ∨
      ∃ u, p = .obj u ∧ (u.id = none ∨ u.nombre = none ∨ u.correo = none)) :
    (initSession p).user = none ∧ (p ≠ .absent → (initSession p).erased = true) := by
  rcases hp with h | h | ⟨u, h, hf⟩
  · subst h
    exact ⟨rfl, fun hne => absurd rfl hne⟩
  · subst h
    exact ⟨rfl, fun _ => rfl⟩
  · subst h
    have hv : storedUserValid u = false := by
      rcases hf with h1 | h1 | h1 <;> simp [storedUserValid, jsTruthy, h1]
    exact ⟨by simp [initSession, hv], fun _ => by simp [initSession, hv]⟩

/-- Witness for C8: a persisted object lacking the `id` field ends
unauthenticated and erased. -/
theorem malformed_session_witness :
    (initSession (.obj ⟨none, some "Ana", some "a@b.com", some "admin"⟩)).user = none
      ∧ (initSession (.obj ⟨none, some "Ana", some "a@b.com", some "admin"⟩)).erased = true :=
  ⟨(malformed_session_unauthenticated _ (Or.inr (Or.inr ⟨_, rfl, Or.inl rfl⟩))).1,
   (malformed_session_unauthenticated _ (Or.inr (Or.inr ⟨_, rfl, Or.inl rfl⟩))).2 (by decide)⟩

/-- C9 (distinguished-account guard): a delete click whose target
display name equals `admin` case-insensitively is refused with the
restriction message before any dialog opens; the handler reads no acting
principal, so the refusal holds regardless of actor. -/
theorem reserved_admin_delete_guard (userId userName : String)
    (hid : userId ≠ "") (hname : userName ≠ "") (hadmin : jsToLower userName = "admin") :
    handleDeleteClick userId userName
        = .restricted "No se puede eliminar al usuario administrador principal."
      ∧ ∀ i n, handleDeleteClick userId userName ≠ .openDialog i n := by
  have he : handleDeleteClick userId userName
      = .restricted "No se puede eliminar al usuario administrador principal." := by
    simp [handleDeleteClick, hid, hname, hadmin]
  exact ⟨he, fun i n hcontra => by rw [he] at hcontra; cases hcontra⟩

/-- Witness for C9: the mixed-case name `Admin` is refused. -/
theorem reserved_admin_delete_guard_witness :
    handleDeleteClick "u7" "Admin"
      = .restricted "No se puede eliminar al usuario administrador principal." :=
  (reserved_admin_delete_guard "u7" "Admin" (by decide) (by decide) (by decide)).1

/-- C10 (no-op update frame): `updateUser` with every field undefined
issues no store write at all — it returns successfully with no
`updateDoc` call, and the store (including the `updatedAt` of the target)
is left entirely unchanged. -/
theorem noop_update_frame (hashFn : String → String) (store : Store)
    (userId : String) (now : Nat) :
    updateUser hashFn store userId emptyUpdate = .ok none
      ∧ applyUpdateUser hashFn store userId emptyUpdate now = .ok store :=
  ⟨rfl, rfl⟩


end Studio
